import Mathlib

/-!
# Verification of the xchange currency converter

Shallow embedding of `src/xchange.py` (an interactive command-line currency
converter) and proofs about its conversion core.

Modelling conventions:
* Python `float` values are embedded as exact rationals (`ℚ`).
* The Python `dict` of rates is embedded as an association list
  (`List (String × ℚ)`) with first-match lookup.
* `sys.exit(n)` is embedded as an explicit outcome carrying the exit code;
  each fatal error branch of the source prints a message and calls
  `sys.exit(1)`, which we record in the error value.
* Console input is embedded as a list of strings (one entry per `input()`
  call); console output other than exit codes and conversion results is
  cosmetic and not modelled (the spec declares decoration out of scope).
-/

set_option autoImplicit false

namespace Xchange

/-- The rate table fetched from the API: currency code to numeric rate. -/
abbrev RateTable := List (String × ℚ)

/-- The static currency registry `SUPPORTED_EXCHANGES` from `src/xchange.py`,
verbatim. -/
def SUPPORTED_EXCHANGES : List String := [
    "ADA", "AED", "AFN", "ALL", "AMD", "ANG", "AOA", "ARB", "ARS", "AUD", "AWG", "AZN",
    "BAM", "BBD", "BDT", "BGN", "BHD", "BIF", "BMD", "BNB", "BND", "BOB", "BRL", "BSD",
    "BTC", "BTN", "BWP", "BYN", "BYR", "BZD", "CAD", "CDF", "CHF", "CLF", "CLP", "CNY",
    "COP", "CRC", "CUC", "CUP", "CVE", "CZK", "DAI", "DJF", "DKK", "DOP", "DOT", "DZD",
    "EGP", "ERN", "ETB", "ETH", "EUR", "FJD", "FKP", "GBP", "GEL", "GGP", "GHS", "GIP",
    "GMD", "GNF", "GTQ", "GYD", "HKD", "HNL", "HRK", "HTG", "HUF", "IDR", "ILS", "IMP",
    "INR", "IQD", "IRR", "ISK", "JEP", "JMD", "JOD", "JPY", "KES", "KGS", "KHR", "KMF",
    "KPW", "KRW", "KWD", "KYD", "KZT", "LAK", "LBP", "LKR", "LRD", "LSL", "LTC", "LTL",
    "LVL", "LYD", "MAD", "MDL", "MGA", "MKD", "MMK", "MNT", "MOP", "MRO", "MUR", "MVR",
    "MWK", "MXN", "MYR", "MZN", "NAD", "NGN", "NIO", "NOK", "NPR", "NZD", "OMR", "OP",
    "PAB", "PEN", "PGK", "PHP", "PKR", "PLN", "PYG", "QAR", "RON", "RSD", "RUB", "RWF",
    "SAR", "SBD", "SCR", "SDG", "SEK", "SGD", "SHP", "SLL", "SOL", "SOS", "SRD", "STD",
    "SVC", "SYP", "SZL", "THB", "TJS", "TMT", "TND", "TOP", "TRY", "TTD", "TWD", "TZS",
    "UAH", "UGX", "USD", "UYU", "UZS", "VEF", "VND", "VUV", "WST", "XAF", "XAG", "XAU",
    "XCD", "XDR", "XOF", "XPD", "XPF", "XPT", "XRP", "YER", "ZAR", "ZMK", "ZMW", "ZWL"
]

/-- Embedding of Python `str.upper()` (ASCII range; currency codes and the
exit token are ASCII). -/
def pyUpper (s : String) : String :=
  String.mk (s.data.map Char.toUpper)

/-- Embedding of Python `str.lower()` (ASCII range). -/
def pyLower (s : String) : String :=
  String.mk (s.data.map Char.toLower)

/-- Embedding of Python `str.strip()`: remove whitespace from both ends. -/
def pyStrip (s : String) : String :=
  String.mk (((s.data.dropWhile Char.isWhitespace).reverse.dropWhile Char.isWhitespace).reverse)

/-- `validate_currency` from the source: `currency.upper() in SUPPORTED_EXCHANGES`. -/
def validate_currency (currency : String) : Bool :=
  SUPPORTED_EXCHANGES.contains (pyUpper currency)

/-- First-match lookup in the rate table, embedding Python `rates[key]`
(`none` embeds the raised `KeyError`). -/
def rateOf : RateTable → String → Option ℚ
  | [], _ => none
  | (k, v) :: rest, key => if k = key then some v else rateOf rest key

/-- A single apostrophe character, used to embed Python `str(KeyError)`,
which renders the missing key in quotes. -/
def quoteChar : Char := Char.ofNat 39

/-- Python `str(e)` for `e : KeyError` raised by a missing string key:
the key surrounded by single quotes. -/
def pyKeyErrorStr (key : String) : String :=
  String.singleton quoteChar ++ key ++ String.singleton quoteChar

/-- The error outcomes of `convert_currency`, one per fatal branch in the
source. (`except ZeroDivisionError` in the source is unreachable: the
`from_rate == 0` guard runs before the division.) -/
inductive ConvError where
  /-- `if not validate_currency(from_currency) or not validate_currency(to_currency)` -/
  | unsupportedCurrency
  /-- `except KeyError as e` around the two rate lookups; carries the missing key -/
  | rateUnavailable (key : String)
  /-- `if from_rate == 0` guard; carries the (uppercased) source currency -/
  | zeroFromRate (currency : String)
  deriving DecidableEq

/-- The message printed by each fatal branch of `convert_currency`, verbatim
from the source. -/
def ConvError.message : ConvError → String
  | .unsupportedCurrency => "Unsupported currency"
  | .rateUnavailable key => "Exchange rate not available for currency: " ++ pyKeyErrorStr key
  | .zeroFromRate currency => "Exchange rate for " ++ currency ++ " is not available"

/-- Each fatal branch of `convert_currency` calls `sys.exit(1)`. -/
def ConvError.exitCode : ConvError → Nat
  | _ => 1

/-- `convert_currency` from the source. Errors embed the print-and-`sys.exit(1)`
branches. The two lookups happen (in order) before the zero-rate guard,
exactly as in the `try` block of the source. -/
def convert_currency (amount : ℚ) (from_currency to_currency : String)
    (rates : RateTable) : Except ConvError ℚ :=
  let fromC := pyUpper from_currency
  let toC := pyUpper to_currency
  if !(validate_currency fromC) || !(validate_currency toC) then
    .error .unsupportedCurrency
  else
    match rateOf rates fromC with
    | none => .error (.rateUnavailable fromC)
    | some from_rate =>
      match rateOf rates toC with
      | none => .error (.rateUnavailable toC)
      | some to_rate =>
        if from_rate = 0 then .error (.zeroFromRate fromC)
        else .ok ((amount / from_rate) * to_rate)

deriving instance DecidableEq for Except

/-! ## Rate fetching (`fetch_exchange_rates` and `main`) -/

/-- The shapes the single HTTP fetch can take, as seen by
`fetch_exchange_rates`. The first two both surface as
`requests.RequestException` (`raise_for_status` raises `HTTPError`, a
subclass; connection problems raise other subclasses). `invalidJson` is the
`ValueError` raised by `response.json()` on a malformed or empty body.
`jsonBody` is a successfully parsed JSON object, whose `rates` field may be
missing (`none`): `api_response.get("rates", {})` then yields `{}`. -/
inductive ApiResult where
  | httpStatusError (msg : String)
  | networkFailure (msg : String)
  | invalidJson (msg : String)
  | jsonBody (ratesField : Option RateTable)
  deriving DecidableEq

/-- A fatal startup error: the message printed and the `sys.exit` code. -/
structure FetchError where
  message : String
  code : Nat
  deriving DecidableEq

/-- `fetch_exchange_rates` from the source, as a function of the outcome of
the HTTP request. Every failure shape prints a message and exits with
status 1; on success the `rates` mapping is returned unchanged. -/
def fetch_exchange_rates : ApiResult → Except FetchError RateTable
  | .httpStatusError msg => .error ⟨"Error fetching data from API: " ++ msg, 1⟩
  | .networkFailure msg => .error ⟨"Error fetching data from API: " ++ msg, 1⟩
  | .invalidJson msg => .error ⟨"Error parsing API response: " ++ msg, 1⟩
  | .jsonBody none => .error ⟨"No exchange rates data received from API", 1⟩
  | .jsonBody (some rates) =>
    if rates.isEmpty then .error ⟨"No exchange rates data received from API", 1⟩
    else .ok rates

/-! ## Amount parsing (`get_user_amount`) -/

/-- Numeric value of a list of decimal digit characters. -/
def digitsVal (cs : List Char) : Nat :=
  cs.foldl (fun acc c => 10 * acc + (c.toNat - 48)) 0

/-- Parse an unsigned decimal literal: digits with an optional fractional
part (`"12"`, `"12.5"`, `"12."`, `".5"`). Returns `none` on anything else. -/
def parseUnsignedDecimal (cs : List Char) : Option ℚ :=
  let intPart := cs.takeWhile Char.isDigit
  let rest := cs.dropWhile Char.isDigit
  match rest with
  | [] => if intPart.isEmpty then none else some (digitsVal intPart)
  | c :: rest2 =>
    if c = '.' then
      let fracPart := rest2.takeWhile Char.isDigit
      let rest3 := rest2.dropWhile Char.isDigit
      if rest3.isEmpty && !(intPart.isEmpty && fracPart.isEmpty) then
        some ((digitsVal intPart : ℚ) + (digitsVal fracPart : ℚ) / (10 ^ fracPart.length : ℚ))
      else none
    else none

/-- Embedding of Python `float(s)` as used by `get_user_amount`: surrounding
whitespace is ignored, an optional sign precedes a decimal literal.
(The exotic accepted forms — exponents, `inf`, `nan`, underscores — are not
modelled; the claims only rely on rejection of non-numeric input and on
plain decimals.) `none` embeds the raised `ValueError`. -/
def parse_float (s : String) : Option ℚ :=
  match (pyStrip s).data with
  | [] => none
  | c :: rest =>
    if c = '-' then (parseUnsignedDecimal rest).map (fun q => -q)
    else if c = '+' then parseUnsignedDecimal rest
    else parseUnsignedDecimal (c :: rest)

/-! ## The interactive loop (`run_conversion_loop`) and `main` -/

/-- Observable outcome of running the loop on a finite input stream:
either the process exited (with its exit code and the list of conversion
results displayed up to that point), or the model ran out of input or fuel. -/
inductive LoopOutcome where
  /-- The process terminated via `sys.exit` with this code, having displayed
  these conversion results. -/
  | exited (code : Nat) (shown : List ℚ)
  /-- Input stream or fuel exhausted while the loop was still running. -/
  | starved (shown : List ℚ)
  deriving DecidableEq

/-- `run_conversion_loop` from the source, driven by a finite list of input
lines. Per iteration: read the source currency (stripped; `exit` in any case
terminates with status 0), read the target currency (same check), read the
amount (on a `ValueError` print an error, consume the `Press Enter` line and
restart the iteration), then convert — any converter error exits the process
with status 1 — and display the result, then consume the `Press Enter` line.
`fuel` bounds the number of iterations so the model is total; `shown`
accumulates the displayed conversion results. -/
def run_conversion_loop : Nat → RateTable → List String → List ℚ → LoopOutcome
  | 0, _, _, shown => .starved shown
  | _ + 1, _, [], shown => .starved shown
  | fuel + 1, rates, rawFrom :: afterFrom, shown =>
    let from_currency_input := pyStrip rawFrom
    if pyLower from_currency_input = "exit" then .exited 0 shown
    else
      match afterFrom with
      | [] => .starved shown
      | rawTo :: afterTo =>
        let to_currency_input := pyStrip rawTo
        if pyLower to_currency_input = "exit" then .exited 0 shown
        else
          match afterTo with
          | [] => .starved shown
          | rawAmount :: afterAmount =>
            match parse_float (pyStrip rawAmount) with
            | none =>
              match afterAmount with
              | [] => .starved shown
              | _pressEnter :: afterAck =>
                run_conversion_loop fuel rates afterAck shown
            | some amount =>
              match convert_currency amount from_currency_input to_currency_input rates with
              | .error e => .exited e.exitCode shown
              | .ok converted_amount =>
                match afterAmount with
                | [] => .starved (shown ++ [converted_amount])
                | _pressEnter :: afterAck =>
                  run_conversion_loop fuel rates afterAck (shown ++ [converted_amount])

/-- `main` from the source: fetch the rates once; a fetch failure exits the
process (with the error code, i.e. 1) before the interactive loop starts and
before any input is read; on success the loop runs with the fetched rates. -/
def main (api : ApiResult) (fuel : Nat) (inputs : List String) : LoopOutcome :=
  match fetch_exchange_rates api with
  | .error e => .exited e.code []
  | .ok rates => run_conversion_loop fuel rates inputs []

/-! ## Helper lemmas -/

/-- `Char.ofNat` of a scalar value below the surrogate range keeps the value. -/
theorem char_toNat_ofNat_valid {n : Nat} (h : n < 55296) : (Char.ofNat n).toNat = n := by
  rw [Char.ofNat]
  rw [dif_pos (Or.inl h)]
  simp [Char.ofNatAux, Char.toNat, UInt32.ofNat', UInt32.toNat]

/-- ASCII uppercasing is idempotent on characters. -/
theorem char_toUpper_idem (c : Char) : c.toUpper.toUpper = c.toUpper := by
  unfold Char.toUpper
  by_cases h : c.toNat ≥ 97 ∧ c.toNat ≤ 122
  · rw [if_pos h]
    have hv : (Char.ofNat (c.toNat - 32)).toNat = c.toNat - 32 :=
      char_toNat_ofNat_valid (by omega)
    rw [if_neg (by rw [hv]; omega)]
  · rw [if_neg h, if_neg h]

/-- Uppercasing a character list twice equals uppercasing it once. -/
theorem map_toUpper_idem (l : List Char) :
    (l.map Char.toUpper).map Char.toUpper = l.map Char.toUpper := by
  induction l with
  | nil => rfl
  | cons c cs ih => simp [char_toUpper_idem c, ih]

/-- `pyUpper` is idempotent. -/
theorem pyUpper_idem (s : String) : pyUpper (pyUpper s) = pyUpper s := by
  unfold pyUpper
  exact congrArg String.mk (map_toUpper_idem s.data)

/-- Registry membership only looks at the uppercased code. -/
theorem validate_currency_pyUpper (code : String) :
    validate_currency (pyUpper code) = validate_currency code := by
  unfold validate_currency
  rw [pyUpper_idem]

/-- One loop iteration that reaches the converter: the exit checks fail, the
amount parses, and the iteration continues according to the converter's
verdict (an error exits the process with the error's exit code; a success
displays the result and continues past the acknowledgment read). -/
theorem run_loop_exits_on_convert_error (fuel : Nat) (rates : RateTable)
    (rawFrom rawTo rawAmount : String) (rest : List String) (shown : List ℚ)
    (amount : ℚ) (e : ConvError)
    (hFrom : pyLower (pyStrip rawFrom) ≠ "exit")
    (hTo : pyLower (pyStrip rawTo) ≠ "exit")
    (hAmt : parse_float (pyStrip rawAmount) = some amount)
    (hConv : convert_currency amount (pyStrip rawFrom) (pyStrip rawTo) rates = .error e) :
    run_conversion_loop (fuel + 1) rates (rawFrom :: rawTo :: rawAmount :: rest) shown =
      .exited 1 shown := by
  have hcode : e.exitCode = 1 := rfl
  simp only [run_conversion_loop]
  rw [if_neg hFrom, if_neg hTo]
  cases rest with
  | nil => simp only [hAmt, hConv, hcode]
  | cons a l => simp only [hAmt, hConv, hcode]

/-! ## Claims -/

/-- Claim C1: for every amount and every pair of codes that both pass registry
membership after uppercasing and both have rate-table entries, the source rate
being nonzero, `convert_currency` returns exactly `(amount / rates[X]) * rates[Y]`. -/
theorem C1_convert_formula (amount : ℚ) (X Y : String) (rates : RateTable) (rX rY : ℚ)
    (hX : validate_currency (pyUpper X) = true)
    (hY : validate_currency (pyUpper Y) = true)
    (hrX : rateOf rates (pyUpper X) = some rX)
    (hrY : rateOf rates (pyUpper Y) = some rY)
    (hrX0 : rX ≠ 0) :
    convert_currency amount X Y rates = .ok ((amount / rX) * rY) := by
  simp [convert_currency, hX, hY, hrX, hrY, hrX0]

set_option maxRecDepth 8192 in
/-- Witness for C1 at amount 10, `usd` to `jpy`, rates `USD=1`, `JPY=110`. -/
theorem C1_convert_formula_witness :
    validate_currency (pyUpper "usd") = true ∧
    validate_currency (pyUpper "jpy") = true ∧
    rateOf [("USD", (1 : ℚ)), ("JPY", (110 : ℚ))] (pyUpper "usd") = some 1 ∧
    rateOf [("USD", (1 : ℚ)), ("JPY", (110 : ℚ))] (pyUpper "jpy") = some 110 ∧
    (1 : ℚ) ≠ 0 ∧
    convert_currency 10 "usd" "jpy" [("USD", (1 : ℚ)), ("JPY", (110 : ℚ))] =
      .ok ((10 : ℚ) / 1 * 110) :=
  ⟨by decide, by decide, by decide, by decide, by decide,
    C1_convert_formula 10 "usd" "jpy" [("USD", (1 : ℚ)), ("JPY", (110 : ℚ))] 1 110
      (by decide) (by decide) (by decide) (by decide) (by decide)⟩

/-- Claim C5: identity conversion — for every amount `0 ≤ a` and registered
code with a nonzero rate, converting a currency to itself returns the amount
exactly (the arithmetic is exact over `ℚ`). -/
theorem C5_identity_conversion (amount : ℚ) (X : String) (rates : RateTable) (r : ℚ)
    (hA : 0 ≤ amount)
    (hX : validate_currency (pyUpper X) = true)
    (hr : rateOf rates (pyUpper X) = some r)
    (hr0 : r ≠ 0) :
    convert_currency amount X X rates = .ok amount := by
  simp [convert_currency, hX, hr, hr0, div_mul_cancel₀]

set_option maxRecDepth 8192 in
/-- Witness for C5 at amount 7, code `usd`, rate `USD=2`. -/
theorem C5_identity_conversion_witness :
    (0 : ℚ) ≤ 7 ∧
    validate_currency (pyUpper "usd") = true ∧
    rateOf [("USD", (2 : ℚ))] (pyUpper "usd") = some 2 ∧
    (2 : ℚ) ≠ 0 ∧
    convert_currency 7 "usd" "usd" [("USD", (2 : ℚ))] = .ok 7 :=
  ⟨by decide, by decide, by decide, by decide,
    C5_identity_conversion 7 "usd" [("USD", (2 : ℚ))] 2
      (by decide) (by decide) (by decide) (by decide)⟩

/-- Claim C10: there is no guard on the target rate — with both codes
registered and present, source rate nonzero but target rate zero,
`convert_currency` succeeds and returns exactly 0. -/
theorem C10_zero_target_rate (amount : ℚ) (X Y : String) (rates : RateTable) (rX : ℚ)
    (hX : validate_currency (pyUpper X) = true)
    (hY : validate_currency (pyUpper Y) = true)
    (hrX : rateOf rates (pyUpper X) = some rX)
    (hrX0 : rX ≠ 0)
    (hrY : rateOf rates (pyUpper Y) = some 0) :
    convert_currency amount X Y rates = .ok 0 := by
  simp [convert_currency, hX, hY, hrX, hrY, hrX0]

set_option maxRecDepth 8192 in
/-- Witness for C10 at amount 42, `usd` to `eur`, rates `USD=1`, `EUR=0`. -/
theorem C10_zero_target_rate_witness :
    validate_currency (pyUpper "usd") = true ∧
    validate_currency (pyUpper "eur") = true ∧
    rateOf [("USD", (1 : ℚ)), ("EUR", (0 : ℚ))] (pyUpper "usd") = some 1 ∧
    (1 : ℚ) ≠ 0 ∧
    rateOf [("USD", (1 : ℚ)), ("EUR", (0 : ℚ))] (pyUpper "eur") = some 0 ∧
    convert_currency 42 "usd" "eur" [("USD", (1 : ℚ)), ("EUR", (0 : ℚ))] = .ok 0 :=
  ⟨by decide, by decide, by decide, by decide, by decide,
    C10_zero_target_rate 42 "usd" "eur" [("USD", (1 : ℚ)), ("EUR", (0 : ℚ))] 1
      (by decide) (by decide) (by decide) (by decide) (by decide)⟩

/-- Claim C4: currency validation is case-insensitive — membership is decided
on the uppercased form (so `usd`, `USD`, `Usd` are all accepted and `XYZ` is
rejected), and whenever either code fails membership, `convert_currency`
fails with the unsupported-currency error, whose branch exits with status 1. -/
theorem C4_case_insensitive_validation :
    (∀ code : String, validate_currency code = validate_currency (pyUpper code)) ∧
    validate_currency "usd" = true ∧
    validate_currency "USD" = true ∧
    validate_currency "Usd" = true ∧
    validate_currency "XYZ" = false ∧
    (∀ (amount : ℚ) (X Y : String) (rates : RateTable),
      validate_currency (pyUpper X) = false ∨ validate_currency (pyUpper Y) = false →
      convert_currency amount X Y rates = .error .unsupportedCurrency ∧
      ConvError.unsupportedCurrency.message = "Unsupported currency" ∧
      ConvError.unsupportedCurrency.exitCode = 1) ∧
    (∀ (fuel : Nat) (rates : RateTable) (rawFrom rawTo rawAmount : String)
        (rest : List String) (shown : List ℚ) (amt : ℚ),
      pyLower (pyStrip rawFrom) ≠ "exit" → pyLower (pyStrip rawTo) ≠ "exit" →
      parse_float (pyStrip rawAmount) = some amt →
      (validate_currency (pyUpper (pyStrip rawFrom)) = false ∨
        validate_currency (pyUpper (pyStrip rawTo)) = false) →
      run_conversion_loop (fuel + 1) rates (rawFrom :: rawTo :: rawAmount :: rest) shown =
        .exited 1 shown) := by
  refine ⟨fun code => (validate_currency_pyUpper code).symm,
    by decide, by decide, by decide, by decide, ?_, ?_⟩
  · intro amount X Y rates h
    refine ⟨?_, rfl, rfl⟩
    rcases h with h | h
    · simp [convert_currency, h]
    · simp [convert_currency, h]
  · intro fuel rates rawFrom rawTo rawAmount rest shown amt hFrom hTo hAmt h
    refine run_loop_exits_on_convert_error fuel rates rawFrom rawTo rawAmount rest shown
      amt .unsupportedCurrency hFrom hTo hAmt ?_
    rcases h with h | h
    · simp [convert_currency, h]
    · simp [convert_currency, h]

set_option maxRecDepth 8192 in
/-- Witness for C4: `XYZ` fails membership, so converting from it fails with
the unsupported-currency error. -/
theorem C4_case_insensitive_validation_witness :
    (validate_currency (pyUpper "XYZ") = false ∨ validate_currency (pyUpper "USD") = false) ∧
    (convert_currency 5 "XYZ" "USD" [("USD", (1 : ℚ))] = .error .unsupportedCurrency ∧
      ConvError.unsupportedCurrency.message = "Unsupported currency" ∧
      ConvError.unsupportedCurrency.exitCode = 1) :=
  ⟨Or.inl (by decide),
    C4_case_insensitive_validation.2.2.2.2.2.1 5 "XYZ" "USD" [("USD", (1 : ℚ))]
      (Or.inl (by decide))⟩

/-- Claim C6: a non-parsing amount restarts the iteration from the
source-currency prompt — after reporting the error and consuming the
acknowledgment line, the loop continues with the same rate table and the same
displayed-results history, the two currency codes already entered are
discarded, and the process does not exit. -/
theorem C6_invalid_amount_restarts_loop (fuel : Nat) (rates : RateTable)
    (rawFrom rawTo rawAmount ack : String) (rest : List String) (shown : List ℚ)
    (hFrom : pyLower (pyStrip rawFrom) ≠ "exit")
    (hTo : pyLower (pyStrip rawTo) ≠ "exit")
    (hAmt : parse_float (pyStrip rawAmount) = none) :
    run_conversion_loop (fuel + 1) rates (rawFrom :: rawTo :: rawAmount :: ack :: rest) shown =
      run_conversion_loop fuel rates rest shown := by
  simp only [run_conversion_loop]
  rw [if_neg hFrom, if_neg hTo]
  simp only [hAmt]

set_option maxRecDepth 8192 in
/-- Witness for C6: the amount `abc` does not parse, so the iteration restarts
with the remaining input and unchanged state. -/
theorem C6_invalid_amount_restarts_loop_witness :
    pyLower (pyStrip "USD") ≠ "exit" ∧
    pyLower (pyStrip "EUR") ≠ "exit" ∧
    parse_float (pyStrip "abc") = none ∧
    run_conversion_loop 2 [("USD", (1 : ℚ))] ["USD", "EUR", "abc", "", "exit"] [] =
      run_conversion_loop 1 [("USD", (1 : ℚ))] ["exit"] [] :=
  ⟨by decide, by decide, by decide,
    C6_invalid_amount_restarts_loop 1 [("USD", (1 : ℚ))] "USD" "EUR" "abc" "" ["exit"] []
      (by decide) (by decide) (by decide)⟩

/-- Claim C7: the literal token `exit` (in any letter case, i.e. whenever the
stripped input lowercases to `exit`) at either currency prompt terminates the
process with status 0, with no conversion performed in that iteration. -/
theorem C7_exit_token_terminates (fuel : Nat) (rates : RateTable) (shown : List ℚ) :
    (∀ (rawFrom : String) (rest : List String),
      pyLower (pyStrip rawFrom) = "exit" →
      run_conversion_loop (fuel + 1) rates (rawFrom :: rest) shown = .exited 0 shown) ∧
    (∀ (rawFrom rawTo : String) (rest : List String),
      pyLower (pyStrip rawFrom) ≠ "exit" → pyLower (pyStrip rawTo) = "exit" →
      run_conversion_loop (fuel + 1) rates (rawFrom :: rawTo :: rest) shown =
        .exited 0 shown) := by
  constructor
  · intro rawFrom rest h
    simp only [run_conversion_loop]
    rw [if_pos h]
  · intro rawFrom rawTo rest hFrom hTo
    simp only [run_conversion_loop]
    rw [if_neg hFrom, if_pos hTo]

/-- Witness for C7: typing ` EXIT ` at the source prompt ends the run with
exit status 0 and nothing shown. -/
theorem C7_exit_token_terminates_witness :
    pyLower (pyStrip " EXIT ") = "exit" ∧
    run_conversion_loop 1 [("USD", (1 : ℚ))] [" EXIT ", "EUR", "5"] [] = .exited 0 [] :=
  ⟨by decide,
    (C7_exit_token_terminates 0 [("USD", (1 : ℚ))] []).1 " EXIT " ["EUR", "5"] (by decide)⟩

set_option maxRecDepth 8192 in
/-- Claim C2 counterexample: with `USD=0`, `EUR=1`, converting from `USD`
does exit via the zero-rate guard, but the message it prints is
`Exchange rate for USD is not available` — the rate-unavailable wording, not
the `invalid exchange rate` wording the claim states (the
`Invalid exchange rate (division by zero)` handler in the source is
unreachable because the guard runs first). -/
theorem C2_zero_rate_counterexample :
    convert_currency 100 "USD" "EUR" [("USD", (0 : ℚ)), ("EUR", (1 : ℚ))] =
      .error (.zeroFromRate "USD") ∧
    (ConvError.zeroFromRate "USD").message = "Exchange rate for USD is not available" ∧
    (ConvError.zeroFromRate "USD").message ≠ "invalid exchange rate" ∧
    ¬ (("invalid" : String).data <:+: (pyLower (ConvError.zeroFromRate "USD").message).data) :=
  ⟨by decide, by decide, by decide, by decide⟩

/-- Claim C2 as amended: if both codes pass registry membership after
uppercasing, the from-rate entry is exactly zero and the to-rate entry is
present, then `convert_currency` fails via the zero-rate guard — printing
`Exchange rate for X is not available` (not `invalid exchange rate`) — the
branch exits with status 1, no converted value is returned, and a loop
iteration reaching this conversion terminates the process with status 1. -/
theorem C2_zero_rate_amended (amount : ℚ) (X Y : String) (rates : RateTable) (rY : ℚ)
    (hX : validate_currency (pyUpper X) = true)
    (hY : validate_currency (pyUpper Y) = true)
    (hrX : rateOf rates (pyUpper X) = some 0)
    (hrY : rateOf rates (pyUpper Y) = some rY) :
    convert_currency amount X Y rates = .error (.zeroFromRate (pyUpper X)) ∧
    (ConvError.zeroFromRate (pyUpper X)).message =
      "Exchange rate for " ++ pyUpper X ++ " is not available" ∧
    (ConvError.zeroFromRate (pyUpper X)).exitCode = 1 ∧
    ∀ (fuel : Nat) (rawAmount : String) (rest : List String) (shown : List ℚ),
      pyStrip X = X → pyStrip Y = Y →
      pyLower X ≠ "exit" → pyLower Y ≠ "exit" →
      parse_float (pyStrip rawAmount) = some amount →
      run_conversion_loop (fuel + 1) rates (X :: Y :: rawAmount :: rest) shown =
        .exited 1 shown := by
  have hconv : convert_currency amount X Y rates = .error (.zeroFromRate (pyUpper X)) := by
    simp [convert_currency, hX, hY, hrX, hrY]
  refine ⟨hconv, rfl, rfl, ?_⟩
  intro fuel rawAmount rest shown hsX hsY heX heY hAmt
  refine run_loop_exits_on_convert_error fuel rates X Y rawAmount rest shown
    amount (.zeroFromRate (pyUpper X)) ?_ ?_ hAmt ?_
  · rw [hsX]; exact heX
  · rw [hsY]; exact heY
  · rw [hsX, hsY]; exact hconv

set_option maxRecDepth 8192 in
/-- Witness for the amended C2 at amount 100, `USD` to `EUR`, rates `USD=0`,
`EUR=1`. -/
theorem C2_zero_rate_amended_witness :
    validate_currency (pyUpper "USD") = true ∧
    validate_currency (pyUpper "EUR") = true ∧
    rateOf [("USD", (0 : ℚ)), ("EUR", (1 : ℚ))] (pyUpper "USD") = some 0 ∧
    rateOf [("USD", (0 : ℚ)), ("EUR", (1 : ℚ))] (pyUpper "EUR") = some 1 ∧
    convert_currency 100 "USD" "EUR" [("USD", (0 : ℚ)), ("EUR", (1 : ℚ))] =
      .error (.zeroFromRate (pyUpper "USD")) :=
  ⟨by decide, by decide, by decide, by decide,
    (C2_zero_rate_amended 100 "USD" "EUR" [("USD", (0 : ℚ)), ("EUR", (1 : ℚ))] 1
      (by decide) (by decide) (by decide) (by decide)).1⟩

/-- Claim C3: a registry-valid code with no rate-table entry makes
`convert_currency` fail with the rate-unavailable error (for whichever lookup
fails first), that branch exits with status 1, and the error — value and
printed message alike — is distinct from the unsupported-currency error. -/
theorem C3_rate_unavailable_distinct (amount : ℚ) (X Y : String) (rates : RateTable)
    (hX : validate_currency (pyUpper X) = true)
    (hY : validate_currency (pyUpper Y) = true) :
    (rateOf rates (pyUpper X) = none →
      convert_currency amount X Y rates = .error (.rateUnavailable (pyUpper X))) ∧
    (∀ rX : ℚ, rateOf rates (pyUpper X) = some rX → rateOf rates (pyUpper Y) = none →
      convert_currency amount X Y rates = .error (.rateUnavailable (pyUpper Y))) ∧
    (∀ c : String, ConvError.rateUnavailable c ≠ .unsupportedCurrency) ∧
    (∀ c : String,
      (ConvError.rateUnavailable c).message ≠ ConvError.unsupportedCurrency.message) ∧
    (∀ c : String, (ConvError.rateUnavailable c).exitCode = 1) ∧
    ∀ (fuel : Nat) (rawAmount : String) (rest : List String) (shown : List ℚ) (amt : ℚ),
      pyStrip X = X → pyStrip Y = Y →
      pyLower X ≠ "exit" → pyLower Y ≠ "exit" →
      parse_float (pyStrip rawAmount) = some amt →
      rateOf rates (pyUpper X) = none →
      run_conversion_loop (fuel + 1) rates (X :: Y :: rawAmount :: rest) shown =
        .exited 1 shown := by
  refine ⟨?_, ?_, fun c h => ConvError.noConfusion h, ?_, fun c => rfl, ?_⟩
  · intro hrX
    simp [convert_currency, hX, hY, hrX]
  · intro rX hrX hrY
    simp [convert_currency, hX, hY, hrX, hrY]
  · intro c h
    have hlen := congrArg String.length h
    simp only [ConvError.message, pyKeyErrorStr, String.length_append] at hlen
    have h1 : ("Exchange rate not available for currency: " : String).length = 42 := by decide
    have h2 : (String.singleton quoteChar).length = 1 := by decide
    have h3 : ("Unsupported currency" : String).length = 20 := by decide
    omega
  · intro fuel rawAmount rest shown amt hsX hsY heX heY hAmt hrX
    refine run_loop_exits_on_convert_error fuel rates X Y rawAmount rest shown
      amt (.rateUnavailable (pyUpper X)) ?_ ?_ hAmt ?_
    · rw [hsX]; exact heX
    · rw [hsY]; exact heY
    · rw [hsX, hsY]; simp [convert_currency, hX, hY, hrX]

set_option maxRecDepth 8192 in
/-- Witness for C3: `USD` is registered but absent from the fetched rates
`EUR=1`, so converting from it fails with the rate-unavailable error. -/
theorem C3_rate_unavailable_distinct_witness :
    validate_currency (pyUpper "USD") = true ∧
    validate_currency (pyUpper "EUR") = true ∧
    rateOf [("EUR", (1 : ℚ))] (pyUpper "USD") = none ∧
    convert_currency 5 "USD" "EUR" [("EUR", (1 : ℚ))] =
      .error (.rateUnavailable (pyUpper "USD")) :=
  ⟨by decide, by decide, by decide,
    (C3_rate_unavailable_distinct 5 "USD" "EUR" [("EUR", (1 : ℚ))]
      (by decide) (by decide)).1 (by decide)⟩

/-- Claim C8: every failure shape of the rate fetch — non-success HTTP status,
network failure, malformed or empty JSON body, missing `rates` field, or an
empty `rates` mapping — produces a descriptive error that makes the program
exit with status 1 before the interactive loop starts (no input consumed, no
conversion shown); on success the fetched mapping is returned unchanged and
the loop runs with it. -/
theorem C8_fetch_failure_modes :
    (∀ msg : String, fetch_exchange_rates (.httpStatusError msg) =
      .error ⟨"Error fetching data from API: " ++ msg, 1⟩) ∧
    (∀ msg : String, fetch_exchange_rates (.networkFailure msg) =
      .error ⟨"Error fetching data from API: " ++ msg, 1⟩) ∧
    (∀ msg : String, fetch_exchange_rates (.invalidJson msg) =
      .error ⟨"Error parsing API response: " ++ msg, 1⟩) ∧
    fetch_exchange_rates (.jsonBody none) =
      .error ⟨"No exchange rates data received from API", 1⟩ ∧
    fetch_exchange_rates (.jsonBody (some [])) =
      .error ⟨"No exchange rates data received from API", 1⟩ ∧
    (∀ (api : ApiResult) (e : FetchError), fetch_exchange_rates api = .error e →
      e.code = 1 ∧ ∀ (fuel : Nat) (inputs : List String), main api fuel inputs = .exited 1 []) ∧
    ∀ rates : RateTable, rates ≠ [] →
      fetch_exchange_rates (.jsonBody (some rates)) = .ok rates ∧
      ∀ (fuel : Nat) (inputs : List String),
        main (.jsonBody (some rates)) fuel inputs = run_conversion_loop fuel rates inputs [] := by
  refine ⟨fun msg => rfl, fun msg => rfl, fun msg => rfl, rfl, rfl, ?_, ?_⟩
  · intro api e h
    have hcode : e.code = 1 := by
      cases api with
      | httpStatusError msg => rw [fetch_exchange_rates] at h; cases h; rfl
      | networkFailure msg => rw [fetch_exchange_rates] at h; cases h; rfl
      | invalidJson msg => rw [fetch_exchange_rates] at h; cases h; rfl
      | jsonBody ratesField =>
        cases ratesField with
        | none => rw [fetch_exchange_rates] at h; cases h; rfl
        | some rates =>
          rw [fetch_exchange_rates] at h
          by_cases hr : rates.isEmpty
          · rw [if_pos hr] at h; cases h; rfl
          · rw [if_neg hr] at h; cases h
    refine ⟨hcode, fun fuel inputs => ?_⟩
    rw [main, h]
    show LoopOutcome.exited e.code [] = .exited 1 []
    rw [hcode]
  · intro rates hr
    have hok : fetch_exchange_rates (.jsonBody (some rates)) = .ok rates := by
      rw [fetch_exchange_rates, if_neg (by simpa [List.isEmpty_iff] using hr)]
    exact ⟨hok, fun fuel inputs => by rw [main, hok]⟩

set_option maxRecDepth 8192 in
/-- Witness for C8: a network failure exits with status 1 before the loop,
and a nonempty rate set is returned as fetched. -/
theorem C8_fetch_failure_modes_witness :
    (fetch_exchange_rates (.networkFailure "timeout") =
      .error ⟨"Error fetching data from API: " ++ "timeout", 1⟩) ∧
    (FetchError.mk ("Error fetching data from API: " ++ "timeout") 1).code = 1 ∧
    main (.networkFailure "timeout") 3 ["USD", "EUR", "5"] = .exited 1 [] ∧
    ([("USD", (1 : ℚ))] : RateTable) ≠ [] ∧
    fetch_exchange_rates (.jsonBody (some [("USD", (1 : ℚ))])) = .ok [("USD", (1 : ℚ))] :=
  ⟨by decide,
    (C8_fetch_failure_modes.2.2.2.2.2.1 (.networkFailure "timeout")
      ⟨"Error fetching data from API: " ++ "timeout", 1⟩ (by decide)).1,
    (C8_fetch_failure_modes.2.2.2.2.2.1 (.networkFailure "timeout")
      ⟨"Error fetching data from API: " ++ "timeout", 1⟩ (by decide)).2 3 ["USD", "EUR", "5"],
    by decide,
    (C8_fetch_failure_modes.2.2.2.2.2.2 [("USD", (1 : ℚ))] (by decide)).1⟩

set_option maxRecDepth 8192 in
/-- Claim C9 counterexample: the registry entry `OP` has only 2 characters,
yet it passes registry membership (so a 2-character code can legitimately
index the rate table). -/
theorem C9_registry_code_length_counterexample :
    ("OP" : String) ∈ SUPPORTED_EXCHANGES ∧
    validate_currency "OP" = true ∧
    ("OP" : String).length = 2 ∧
    ¬ (3 ≤ ("OP" : String).length) := by
  refine ⟨by decide, by decide, by decide, by decide⟩

set_option maxRecDepth 8192 in
/-- Claim C9 as amended: every code in the static registry is uppercase and
has at least 2 characters, and every code other than `OP` has at least 3. -/
theorem C9_registry_code_length_amended :
    ∀ c ∈ SUPPORTED_EXCHANGES, pyUpper c = c ∧ 2 ≤ c.length ∧ (c ≠ "OP" → 3 ≤ c.length) := by
  decide

set_option maxRecDepth 8192 in
/-- Witness for the amended C9 at the registry entry `USD`. -/
theorem C9_registry_code_length_amended_witness :
    ("USD" : String) ∈ SUPPORTED_EXCHANGES ∧
    (pyUpper "USD" = "USD" ∧ 2 ≤ ("USD" : String).length ∧
      (("USD" : String) ≠ "OP" → 3 ≤ ("USD" : String).length)) :=
  ⟨by decide, C9_registry_code_length_amended "USD" (by decide)⟩

end Xchange
